import Mathlib

/-!
Verification of `discovery_demo_sim.py` (a compressed-time multi-agent
discovery simulation).  Python numbers are modelled exactly: `int` fields
as `ℕ`, `float` fields as `ℚ` with float arithmetic read as exact rational
arithmetic.  Clock readings are modelled by the value of
`(datetime.utcnow() - self.start).seconds` — the whole number of elapsed
seconds since orchestrator start — passed as an explicit `ℕ` parameter.
-/

/-- The constant `RUNTIME_SECONDS = 30` from the source. -/
def RUNTIME_SECONDS : ℕ := 30

/-- The constant `SNAPSHOT_EVERY = 1.0` from the source. -/
def SNAPSHOT_EVERY : ℚ := 1

/-- The payload (`data` dict) of an event, restricted to the keys the
orchestrator's reducer reads via `d.get(...)`: `score`, `total_hours` and
`confidence`.  A key absent from the Python dict is `none`; any other
payload key (`process_id`, `section`, `id`, ...) is never read by the
reducer and so is not recorded. -/
structure EventData where
  score : Option ℚ := none
  total_hours : Option ℚ := none
  confidence : Option ℚ := none
deriving DecidableEq

/-- An event as built by `Bus.publish`: `{"event_type": etype, "data": data,
"ts": ...}`.  The timestamp string is never read by the reducer. -/
structure Event where
  event_type : String
  data : EventData := {}
  ts : String := ""
deriving DecidableEq

/-- The orchestrator's metrics dictionary: the ten keys initialised in
`Orchestrator.__init__` (source lines 46–52). -/
structure Metrics where
  processes : ℕ
  requirements : ℕ
  risks : ℕ
  estimate_total : ℚ
  estimate_confidence : ℚ
  data_quality_score : ℚ
  process_coverage : ℚ
  requirements_complete : ℚ
  fsd_completeness : ℚ
  agent_idle_percentage : ℚ
deriving DecidableEq

/-- The initial metrics built in `Orchestrator.__init__`:
`{"processes": 0, "requirements": 0, "risks": 0, "estimate_total": 0.0,
"estimate_confidence": 0.2, "data_quality_score": 0.2,
"process_coverage": 0.05, "requirements_complete": 0.05,
"fsd_completeness": 0.05, "agent_idle_percentage": 0.0}`. -/
def initialMetrics : Metrics where
  processes := 0
  requirements := 0
  risks := 0
  estimate_total := 0
  estimate_confidence := 0.2
  data_quality_score := 0.2
  process_coverage := 0.05
  requirements_complete := 0.05
  fsd_completeness := 0.05
  agent_idle_percentage := 0

/-- The metrics reducer: the `if et == ... / elif ...` dispatch in the body
of `Orchestrator.pump` (source lines 78–93), applied to one dequeued event.
`d.get(k, default)` is modelled by `Option.getD`. -/
def applyEvent (m : Metrics) (e : Event) : Metrics :=
  if e.event_type = "process.discovered" then
    { m with processes := m.processes + 1,
             process_coverage := min 0.95 (m.process_coverage + 0.01) }
  else if e.event_type = "requirement.identified" then
    { m with requirements := m.requirements + 1,
             requirements_complete := min 0.95 (m.requirements_complete + 0.01) }
  else if e.event_type = "risk.identified" then
    { m with risks := m.risks + 1 }
  else if e.event_type = "estimate.updated" then
    { m with estimate_total := e.data.total_hours.getD m.estimate_total,
             estimate_confidence := e.data.confidence.getD m.estimate_confidence }
  else if e.event_type = "data.quality.score" then
    { m with data_quality_score := max m.data_quality_score (e.data.score.getD 0.2) }
  else if e.event_type = "fsd.section_drafted" then
    { m with fsd_completeness := min 0.98 (m.fsd_completeness + 0.02) }
  else m

/-- Folding the reducer over a sequence of dequeued events, in arrival
order. -/
def applySeq (m : Metrics) (evs : List Event) : Metrics :=
  evs.foldl applyEvent m

/-- The six event types that the dispatch in `Orchestrator.pump` handles;
any other `event_type` falls through every branch. -/
def handledTypes : List String :=
  ["process.discovered", "requirement.identified", "risk.identified",
   "estimate.updated", "data.quality.score", "fsd.section_drafted"]

/-- An event with no payload fields that the reducer reads. -/
def mkBare (etype : String) : Event := { event_type := etype }

/-- A `data.quality.score` event carrying the given `score`. -/
def mkDq (s : ℚ) : Event :=
  { event_type := "data.quality.score", data := { score := some s } }

/-- An `estimate.updated` event carrying both optional payload fields. -/
def mkEstimate (hours conf : ℚ) : Event :=
  { event_type := "estimate.updated",
    data := { total_hours := some hours, confidence := some conf } }

/-- The `day()` method of `Orchestrator`:
`min((datetime.utcnow()-self.start).seconds // 6 + 1, 5)`, with `s` the
elapsed-seconds reading. -/
def day (s : ℕ) : ℕ := min (s / 6 + 1) 5

/-- The `hours_to_cutoff()` method of `Orchestrator`: `total = 4*6 + 3`,
`rem = max(0, total - elapsed)`, result `round(rem / 0.25, 2)`.  `rem` is a
whole number of seconds so `rem / 0.25` is an integer and Python's
`round(·, 2)` is the identity on it, hence it is omitted here. -/
def hours_to_cutoff (s : ℕ) : ℚ := (max 0 ((4 * 6 + 3 : ℤ) - (s : ℤ)) : ℤ) / 0.25

/-- The outcome of one iteration of the `while True` loop in
`Orchestrator.pump`: either the loop breaks (deadline seen expired on an
empty-queue timeout) or it continues with an updated queue, metrics and
event log. -/
inductive StepResult where
  | breakLoop : Metrics → List Event → StepResult
  | continueLoop : List Event → Metrics → List Event → StepResult
deriving DecidableEq

/-- One iteration of the consume loop in `Orchestrator.pump` (source lines
70–93): with a non-empty queue, `wait_for(bus.get, 0.2)` returns the head
event, which is appended to the event log and fed to the reducer — the
deadline is not consulted.  With an empty queue the wait times out and the
deadline check `(utcnow - start).seconds > RUNTIME_SECONDS` runs on the
current elapsed-seconds reading `s`: the loop breaks if it holds, else
polls again. -/
def pumpStep (s : ℕ) (q : List Event) (m : Metrics) (log : List Event) : StepResult :=
  match q with
  | [] => if RUNTIME_SECONDS < s then .breakLoop m log else .continueLoop [] m log
  | e :: rest => .continueLoop rest (applyEvent m e) (log ++ [e])

/-- The consume loop of `Orchestrator.pump` run to completion with no
concurrent producers: the queue holds the events still to be dequeued,
`clock n` is the elapsed-seconds reading observed at the n-th timed-out
poll, and `fuel` bounds the number of iterations (`none` means the fuel ran
out while the loop was still polling).  On termination it returns the final
metrics and the persisted event log. -/
def pumpRun : ℕ → (ℕ → ℕ) → ℕ → List Event → Metrics → List Event →
    Option (Metrics × List Event)
  | 0, _, _, _, _, _ => none
  | fuel + 1, clock, n, [], m, log =>
      if RUNTIME_SECONDS < clock n then some (m, log)
      else pumpRun fuel clock (n + 1) [] m log
  | fuel + 1, clock, n, e :: rest, m, log =>
      pumpRun fuel clock n rest (applyEvent m e) (log ++ [e])

/-- A snapshot record as written by `Orchestrator.dashboards` (source lines
105–110); the `ts` string is omitted as it is never read back. -/
structure Snapshot where
  day : ℕ
  hours_to_cutoff : ℚ
  metrics : Metrics
deriving DecidableEq

/-- The orchestrator-owned state the snapshotter interacts with: the live
metrics and the append-only snapshot log. -/
structure OrchState where
  metrics : Metrics
  snaps : List Snapshot
deriving DecidableEq

/-- The idle-percentage step function of `Orchestrator.dashboards` (source
line 104): `0.35 if avg_comp >= 0.75 else 0.15 if avg_comp >= 0.5 else
0.05`. -/
def idleFromAvg (avg : ℚ) : ℚ :=
  if 0.75 ≤ avg then 0.35 else if 0.5 ≤ avg then 0.15 else 0.05

/-- One snapshot emission in `Orchestrator.dashboards` (source lines
102–111): recompute `agent_idle_percentage` from the average completeness,
then append a snapshot holding `self.metrics.copy()` — modelled by
recording the current `Metrics` value — together with `day()` and
`hours_to_cutoff()` at the current elapsed-seconds reading `s`. -/
def snapshotStep (avg : ℚ) (s : ℕ) (st : OrchState) : OrchState :=
  let m := { st.metrics with agent_idle_percentage := idleFromAvg avg }
  { metrics := m,
    snaps := st.snaps ++ [{ day := day s, hours_to_cutoff := hours_to_cutoff s,
                            metrics := m }] }

/-- An interleaving step acting on the orchestrator state: either the
consume loop applies the reducer to a dequeued event, or the snapshotter
fires (with the observed average completeness and elapsed-seconds
reading). -/
inductive OrchOp where
  | consume : Event → OrchOp
  | snapshot : ℚ → ℕ → OrchOp

/-- Running a sequence of interleaved consume/snapshot steps. -/
def runOps : OrchState → List OrchOp → OrchState
  | st, [] => st
  | st, .consume e :: ops => runOps { st with metrics := applyEvent st.metrics e } ops
  | st, .snapshot avg s :: ops => runOps (snapshotStep avg s st) ops

/-- A metrics state whose `process_coverage` already sits above the 0.95
ceiling (not reachable from `initialMetrics`, but a legal `Metrics`
value). -/
def highCoverageMetrics : Metrics :=
  { initialMetrics with process_coverage := 0.96 }

/-- Reducer step on a `process.discovered` event. -/
theorem applyEvent_process (m : Metrics) :
    applyEvent m (mkBare "process.discovered") =
      { m with processes := m.processes + 1,
               process_coverage := min 0.95 (m.process_coverage + 0.01) } := by
  simp [applyEvent, mkBare]

/-- Reducer step on a `requirement.identified` event. -/
theorem applyEvent_requirement (m : Metrics) :
    applyEvent m (mkBare "requirement.identified") =
      { m with requirements := m.requirements + 1,
               requirements_complete := min 0.95 (m.requirements_complete + 0.01) } := by
  simp [applyEvent, mkBare]

/-- Reducer step on a `data.quality.score` event carrying a score. -/
theorem applyEvent_dq (m : Metrics) (s : ℚ) :
    applyEvent m (mkDq s) =
      { m with data_quality_score := max m.data_quality_score s } := by
  simp [applyEvent, mkDq]

/-- Reducer step on an `estimate.updated` event carrying both fields. -/
theorem applyEvent_estimate (m : Metrics) (h c : ℚ) :
    applyEvent m (mkEstimate h c) =
      { m with estimate_total := h, estimate_confidence := c } := by
  simp [applyEvent, mkEstimate]

/-- `applySeq` unfolds one step at a time. -/
theorem applySeq_cons (m : Metrics) (e : Event) (evs : List Event) :
    applySeq m (e :: evs) = applySeq (applyEvent m e) evs := rfl

/-- C10: the initial Metrics created at Orchestrator start are exactly
processes=0, requirements=0, risks=0, estimate_total=0.0,
estimate_confidence=0.2, data_quality_score=0.2, process_coverage=0.05,
requirements_complete=0.05, fsd_completeness=0.05,
agent_idle_percentage=0.0. -/
theorem initialMetrics_values :
    initialMetrics.processes = 0 ∧ initialMetrics.requirements = 0 ∧
    initialMetrics.risks = 0 ∧ initialMetrics.estimate_total = 0 ∧
    initialMetrics.estimate_confidence = 0.2 ∧
    initialMetrics.data_quality_score = 0.2 ∧
    initialMetrics.process_coverage = 0.05 ∧
    initialMetrics.requirements_complete = 0.05 ∧
    initialMetrics.fsd_completeness = 0.05 ∧
    initialMetrics.agent_idle_percentage = 0 := by
  norm_num [initialMetrics]

/-- C1: applying the reducer to the sequence [process.discovered,
process.discovered, requirement.identified, data.quality.score{score:0.4},
data.quality.score{score:0.3}, estimate.updated{total_hours:1500,
confidence:0.7}], starting from the initial Metrics, yields processes=2,
process_coverage=0.07, requirements=1, requirements_complete=0.06,
data_quality_score=0.4, estimate_total=1500, estimate_confidence=0.7. -/
theorem reducer_concrete_scenario :
    applySeq initialMetrics
      [mkBare "process.discovered", mkBare "process.discovered",
       mkBare "requirement.identified", mkDq 0.4, mkDq 0.3,
       mkEstimate 1500 0.7] =
    { processes := 2, requirements := 1, risks := 0,
      estimate_total := 1500, estimate_confidence := 0.7,
      data_quality_score := 0.4, process_coverage := 0.07,
      requirements_complete := 0.06, fsd_completeness := 0.05,
      agent_idle_percentage := 0 } := by
  simp only [applySeq, List.foldl, applyEvent_process, applyEvent_requirement,
    applyEvent_dq, applyEvent_estimate]
  norm_num [initialMetrics, min_def, max_def]

/-- Counterexample to C2 as stated over every Metrics state: from a state
whose `process_coverage` is 0.96 (above the 0.95 clamp ceiling), one
`process.discovered` application drops `process_coverage` to 0.95, a
strict decrease. -/
theorem reducer_not_monotone_above_ceiling :
    (applyEvent highCoverageMetrics (mkBare "process.discovered")).process_coverage <
      highCoverageMetrics.process_coverage := by
  rw [applyEvent_process]
  norm_num [highCoverageMetrics, initialMetrics, min_def]

/-- C2 (amended): for every Metrics state whose clamped fields are at or
below their ceilings — process_coverage ≤ 0.95, requirements_complete ≤
0.95, fsd_completeness ≤ 0.98, true of every state reachable from the
initial Metrics — one application of the Metrics Reducer leaves each of
processes, requirements, risks, process_coverage, requirements_complete,
fsd_completeness and data_quality_score greater than or equal to its
previous value. -/
theorem applyEvent_monotone_of_bounds (m : Metrics) (e : Event)
    (hpc : m.process_coverage ≤ 0.95)
    (hrc : m.requirements_complete ≤ 0.95)
    (hfsd : m.fsd_completeness ≤ 0.98) :
    m.processes ≤ (applyEvent m e).processes ∧
    m.requirements ≤ (applyEvent m e).requirements ∧
    m.risks ≤ (applyEvent m e).risks ∧
    m.process_coverage ≤ (applyEvent m e).process_coverage ∧
    m.requirements_complete ≤ (applyEvent m e).requirements_complete ∧
    m.fsd_completeness ≤ (applyEvent m e).fsd_completeness ∧
    m.data_quality_score ≤ (applyEvent m e).data_quality_score := by
  unfold applyEvent
  split_ifs <;>
    refine ⟨?_, ?_, ?_, ?_, ?_, ?_, ?_⟩ <;>
    first
      | exact le_refl _
      | exact Nat.le_succ _
      | exact le_max_left _ _
      | exact le_min (by assumption) (by linarith)

/-- Witness for the amended C2 at the initial Metrics and a
`process.discovered` event. -/
theorem applyEvent_monotone_of_bounds_witness :
    initialMetrics.processes ≤
      (applyEvent initialMetrics (mkBare "process.discovered")).processes ∧
    initialMetrics.requirements ≤
      (applyEvent initialMetrics (mkBare "process.discovered")).requirements ∧
    initialMetrics.risks ≤
      (applyEvent initialMetrics (mkBare "process.discovered")).risks ∧
    initialMetrics.process_coverage ≤
      (applyEvent initialMetrics (mkBare "process.discovered")).process_coverage ∧
    initialMetrics.requirements_complete ≤
      (applyEvent initialMetrics (mkBare "process.discovered")).requirements_complete ∧
    initialMetrics.fsd_completeness ≤
      (applyEvent initialMetrics (mkBare "process.discovered")).fsd_completeness ∧
    initialMetrics.data_quality_score ≤
      (applyEvent initialMetrics (mkBare "process.discovered")).data_quality_score :=
  applyEvent_monotone_of_bounds initialMetrics (mkBare "process.discovered")
    (by norm_num [initialMetrics]) (by norm_num [initialMetrics])
    (by norm_num [initialMetrics])

/-- One reducer application preserves the three clamp ceilings. -/
theorem applyEvent_bounds (m : Metrics) (e : Event)
    (hpc : m.process_coverage ≤ 0.95)
    (hrc : m.requirements_complete ≤ 0.95)
    (hfsd : m.fsd_completeness ≤ 0.98) :
    (applyEvent m e).process_coverage ≤ 0.95 ∧
    (applyEvent m e).requirements_complete ≤ 0.95 ∧
    (applyEvent m e).fsd_completeness ≤ 0.98 := by
  unfold applyEvent
  split_ifs <;>
    refine ⟨?_, ?_, ?_⟩ <;>
    first | assumption | exact min_le_left _ _

/-- Any reducer run preserves the three clamp ceilings. -/
theorem applySeq_bounds (evs : List Event) (m : Metrics)
    (hpc : m.process_coverage ≤ 0.95)
    (hrc : m.requirements_complete ≤ 0.95)
    (hfsd : m.fsd_completeness ≤ 0.98) :
    (applySeq m evs).process_coverage ≤ 0.95 ∧
    (applySeq m evs).requirements_complete ≤ 0.95 ∧
    (applySeq m evs).fsd_completeness ≤ 0.98 := by
  induction evs generalizing m with
  | nil => exact ⟨hpc, hrc, hfsd⟩
  | cons e evs ih =>
      rw [applySeq_cons]
      obtain ⟨h1, h2, h3⟩ := applyEvent_bounds m e hpc hrc hfsd
      exact ih (applyEvent m e) h1 h2 h3

/-- C3: for every sequence of Events applied by the Metrics Reducer
starting from the initial Metrics, process_coverage and
requirements_complete never exceed 0.95 and fsd_completeness never
exceeds 0.98, however many qualifying Events are applied. -/
theorem applySeq_ceiling_clamp (evs : List Event) :
    (applySeq initialMetrics evs).process_coverage ≤ 0.95 ∧
    (applySeq initialMetrics evs).requirements_complete ≤ 0.95 ∧
    (applySeq initialMetrics evs).fsd_completeness ≤ 0.98 :=
  applySeq_bounds evs initialMetrics (by norm_num [initialMetrics])
    (by norm_num [initialMetrics]) (by norm_num [initialMetrics])

/-- Counterexample to C4 as stated: one `data.quality.score` event with
score 0.1 applied to the initial Metrics leaves `data_quality_score` at
0.2 (the initial value), not at 0.1, the maximum score carried by the
event sequence. -/
theorem dq_floor_counterexample :
    (applySeq initialMetrics [mkDq 0.1]).data_quality_score = 0.2 ∧
    (0.2 : ℚ) ≠ 0.1 := by
  constructor
  · rw [applySeq_cons]
    show (applyEvent initialMetrics (mkDq 0.1)).data_quality_score = 0.2
    rw [applyEvent_dq]
    norm_num [initialMetrics, max_def]
  · norm_num

/-- The reducer never decreases `data_quality_score`, whatever the event. -/
theorem applyEvent_dq_mono (m : Metrics) (e : Event) :
    m.data_quality_score ≤ (applyEvent m e).data_quality_score := by
  unfold applyEvent
  split_ifs <;> first | exact le_refl _ | exact le_max_left _ _

/-- A run of score-carrying `data.quality.score` events computes a running
maximum of `data_quality_score`. -/
theorem applySeq_dq_foldl (scores : List ℚ) (m : Metrics) :
    (applySeq m (scores.map mkDq)).data_quality_score =
      scores.foldl max m.data_quality_score := by
  induction scores generalizing m with
  | nil => rfl
  | cons s ss ih =>
      rw [List.map_cons, applySeq_cons, ih, applyEvent_dq]
      rfl

/-- C4 (amended): after applying any sequence of `data.quality.score`
Events carrying scores to the initial Metrics, `data_quality_score`
equals the maximum of the initial value 0.2 and the scores carried by
those Events, and no reducer application ever decreases it — even when a
later Event reports a lower score than an earlier one. -/
theorem dq_is_running_max (scores : List ℚ) (m : Metrics) (e : Event) :
    (applySeq initialMetrics (scores.map mkDq)).data_quality_score =
      scores.foldl max 0.2 ∧
    m.data_quality_score ≤ (applyEvent m e).data_quality_score := by
  constructor
  · rw [applySeq_dq_foldl]
    norm_num [initialMetrics]
  · exact applyEvent_dq_mono m e

/-- C5: one consume-loop iteration on any event appends it to the event
log and applies the reducer, never failing; the reducer changes only the
Metrics fields associated with the event's `event_type` in the dispatch
table, and an event whose `event_type` is not one of the six handled
types leaves every Metrics field unchanged. -/
theorem reducer_frame (m : Metrics) (e : Event) (rest log : List Event) (s : ℕ) :
    pumpStep s (e :: rest) m log =
      .continueLoop rest (applyEvent m e) (log ++ [e]) ∧
    (applyEvent m e).agent_idle_percentage = m.agent_idle_percentage ∧
    (e.event_type ≠ "process.discovered" →
      (applyEvent m e).processes = m.processes ∧
      (applyEvent m e).process_coverage = m.process_coverage) ∧
    (e.event_type ≠ "requirement.identified" →
      (applyEvent m e).requirements = m.requirements ∧
      (applyEvent m e).requirements_complete = m.requirements_complete) ∧
    (e.event_type ≠ "risk.identified" → (applyEvent m e).risks = m.risks) ∧
    (e.event_type ≠ "estimate.updated" →
      (applyEvent m e).estimate_total = m.estimate_total ∧
      (applyEvent m e).estimate_confidence = m.estimate_confidence) ∧
    (e.event_type ≠ "data.quality.score" →
      (applyEvent m e).data_quality_score = m.data_quality_score) ∧
    (e.event_type ≠ "fsd.section_drafted" →
      (applyEvent m e).fsd_completeness = m.fsd_completeness) ∧
    (e.event_type ∉ handledTypes → applyEvent m e = m) := by
  refine ⟨rfl, ?_⟩
  unfold applyEvent handledTypes
  split_ifs <;> simp_all

/-- Witness for C5 at a `plan.updated` event: an unhandled type leaves
the metrics unchanged. -/
theorem reducer_frame_witness :
    applyEvent initialMetrics (mkBare "plan.updated") = initialMetrics :=
  (reducer_frame initialMetrics (mkBare "plan.updated") [] [] 0).2.2.2.2.2.2.2.2
    (by simp [mkBare, handledTypes])

/-- C6: an `estimate.updated` event whose payload lacks `total_hours`
(respectively `confidence`) leaves `estimate_total` (respectively
`estimate_confidence`) at its prior value rather than failing. -/
theorem estimate_missing_fields_default (m : Metrics) (d : EventData) :
    (d.total_hours = none →
      (applyEvent m { event_type := "estimate.updated", data := d }).estimate_total =
        m.estimate_total) ∧
    (d.confidence = none →
      (applyEvent m { event_type := "estimate.updated", data := d }).estimate_confidence =
        m.estimate_confidence) := by
  constructor <;> intro h <;> simp [applyEvent, h]

/-- Witness for C6 at the initial Metrics and an empty payload. -/
theorem estimate_missing_fields_default_witness :
    (applyEvent initialMetrics
        { event_type := "estimate.updated", data := {} }).estimate_total =
      initialMetrics.estimate_total ∧
    (applyEvent initialMetrics
        { event_type := "estimate.updated", data := {} }).estimate_confidence =
      initialMetrics.estimate_confidence :=
  ⟨(estimate_missing_fields_default initialMetrics {}).1 rfl,
   (estimate_missing_fields_default initialMetrics {}).2 rfl⟩

/-- C7: if the bus is empty and the elapsed-seconds reading already
exceeds RUNTIME_SECONDS at the consume loop's first deadline check, the
loop terminates at once — for any remaining fuel — processing no event
and leaving metrics and log untouched. -/
theorem pump_terminates_past_deadline (fuel : ℕ) (clock : ℕ → ℕ)
    (m : Metrics) (log : List Event) (h : RUNTIME_SECONDS < clock 0) :
    pumpRun (fuel + 1) clock 0 [] m log = some (m, log) := by
  rw [pumpRun, if_pos h]

/-- Witness for C7 with the deadline reading 31 s at loop start. -/
theorem pump_terminates_past_deadline_witness :
    pumpRun 1 (fun _ => 31) 0 [] initialMetrics [] =
      some (initialMetrics, []) :=
  pump_terminates_past_deadline 0 (fun _ => 31) initialMetrics []
    (by decide)

/-- C8: `day()` returns 1 at elapsed reading 0, returns exactly 5 for
every elapsed reading beyond the 30-second five-day window, and never
returns a value greater than 5. -/
theorem day_caps_at_five :
    day 0 = 1 ∧ (∀ s, RUNTIME_SECONDS < s → day s = 5) ∧ ∀ s, day s ≤ 5 := by
  refine ⟨rfl, ?_, ?_⟩
  · intro s hs
    have h30 : 30 < s := hs
    unfold day
    omega
  · intro s
    unfold day
    omega

/-- Witness for C8 at elapsed readings 0, 31 and 1000. -/
theorem day_caps_at_five_witness :
    day 0 = 1 ∧ day 31 = 5 ∧ day 1000 ≤ 5 :=
  ⟨day_caps_at_five.1, day_caps_at_five.2.1 31 (by decide),
   day_caps_at_five.2.2 1000⟩

/-- C9: a snapshot records the Metrics value taken at snapshot time (with
`agent_idle_percentage` just recomputed), and any subsequent interleaving
of reducer applications and snapshotter firings only appends to the
snapshot log — every previously emitted snapshot, including its recorded
metrics, is left unchanged. -/
theorem snapshots_immutable (st : OrchState) (ops : List OrchOp)
    (avg : ℚ) (s : ℕ) :
    (snapshotStep avg s st).snaps =
      st.snaps ++ [{ day := day s, hours_to_cutoff := hours_to_cutoff s,
                     metrics := { st.metrics with
                                  agent_idle_percentage := idleFromAvg avg } }] ∧
    ∃ tail, (runOps st ops).snaps = st.snaps ++ tail := by
  refine ⟨rfl, ?_⟩
  induction ops generalizing st with
  | nil => exact ⟨[], (List.append_nil _).symm⟩
  | cons op ops ih =>
      cases op with
      | consume e =>
          obtain ⟨t, ht⟩ := ih { st with metrics := applyEvent st.metrics e }
          exact ⟨t, ht⟩
      | snapshot avg2 s2 =>
          obtain ⟨t, ht⟩ := ih (snapshotStep avg2 s2 st)
          refine ⟨{ day := day s2, hours_to_cutoff := hours_to_cutoff s2,
                    metrics := { st.metrics with
                                 agent_idle_percentage := idleFromAvg avg2 } } :: t, ?_⟩
          show (runOps (snapshotStep avg2 s2 st) ops).snaps = _
          rw [ht]
          simp [snapshotStep, List.append_assoc]
